import Mathlib

/-!
Verification of the TONEV-SERVER realtime TTS streaming core.

Shallow embedding of the session / streaming code:
 - `src/core/config.py`  : the settings constants used by the claims.
 - `src/api/dependencies.py` : connection-limit validation and the manager
   admission path (`WebSocketManager.connect`).
 - `src/api/websocket.py` : `WSMessageHandler` (message dispatch, synthesis,
   stop, configure handlers, receive loop of `websocket_endpoint_handler`).
 - `src/tts/stream.py`    : `AudioStream.stream_audio` and `AudioStream.close`.
 - `src/tts/model.py`     : the chunking loop of
   `TTSModel.generate_speech_stream`.
 - `src/tts/audio.py`     : `AudioProcessor.array_to_wav_bytes`,
   `wav_bytes_to_array`, `normalize_audio`.

Python float samples are modelled as exact rationals; numpy int16 arrays as
`List Int`.  The transport (fastapi WebSocket) is modelled as the list of
frames successfully delivered plus a closed flag; sending on a closed
websocket raises, which the embedding renders as `Except.error`.
-/

namespace Tonev

/-! ### Settings (defaults in src/core/config.py) -/

/-- The `Settings.MAX_CONNECTIONS` default in src/core/config.py. -/
def maxConnections : Nat := 100

/-- The `Settings.SAMPLE_RATE` default in src/core/config.py. -/
def sampleRate : Nat := 24000

/-- The `Settings.NUM_CHANNELS` default in src/core/config.py. -/
def numChannels : Nat := 1

/-- The `Settings.CHUNK_SIZE` default in src/core/config.py. -/
def chunkSizeDefault : Nat := 4096

/-! ### Transport model

Outbound traffic of one websocket connection: the frames delivered so far and
whether the connection has been closed.  `send` on a closed connection raises
(`Except.error`), as fastapi does after `websocket.close()`. -/

/-- JSON control messages the server sends (src/api/websocket.py and
src/tts/stream.py): `ping`, `end`, `error{msg}`, `success{msg}`. -/
inductive OutMsg where
  | ping : OutMsg
  | endMark : OutMsg
  | errorMsg (msg : String) : OutMsg
  | successMsg (msg : String) : OutMsg
  deriving DecidableEq

/-- One outbound frame: a binary audio frame (raw int16 samples) or a JSON
control message. -/
inductive Frame where
  | bytes (chunk : List Int) : Frame
  | json (m : OutMsg) : Frame
  deriving DecidableEq

/-- The transport half owned by one session: frames delivered so far, and the
closed flag. -/
structure Transport where
  sent : List Frame
  closed : Bool
  deriving DecidableEq

/-- Sending a frame: appends it if the connection is open, raises if it has
been closed (`websocket.send_bytes` / `send_json` after `close`). -/
def Transport.send (t : Transport) (f : Frame) : Except Unit Transport :=
  if t.closed then Except.error () else Except.ok { t with sent := t.sent ++ [f] }

/-- The `websocket.close()`: marks the connection closed; already-delivered frames
stay delivered. -/
def Transport.closeConn (t : Transport) : Transport :=
  { t with closed := true }

/-! ### AudioStream (src/tts/stream.py) -/

/-- The state of one `AudioStream`: its `_active` flag and its websocket.
(`session_id`, config and the background ping task carry no information the
claims need.) -/
structure AudioStream where
  active : Bool
  transport : Transport
  deriving DecidableEq

/-- The `AudioStream.close` (src/tts/stream.py lines 131-154): sets
`_active = False`, cancels the ping/stream tasks, and closes the websocket
(exceptions from `websocket.close()` are swallowed). -/
def AudioStream.close (s : AudioStream) : AudioStream :=
  { active := false, transport := s.transport.closeConn }

/-- The chunk-forwarding loop inside `AudioStream.stream_audio`: for each
chunk produced by the generator, first check `self._active` (break when the
flag is down), then `await self.websocket.send_bytes(chunk)`.  Returns the
transport together with a flag telling whether a send raised. -/
def AudioStream.sendChunks (t : Transport) (active : Bool) :
    List (List Int) → Transport × Bool
  | [] => (t, false)
  | c :: rest =>
    if active then
      match t.send (Frame.bytes c) with
      | Except.ok t2 => AudioStream.sendChunks t2 active rest
      | Except.error _ => (t, true)
    else (t, false)

/-- The `AudioStream.stream_audio` (src/tts/stream.py lines 66-93).  The engine
call `generate_speech_stream` either fails before yielding anything
(`ModelError`) or yields a full list of chunks, so it is passed in as
`Except Unit (List (List Int))`.  The body forwards the chunks (checking
`_active` before each send), then, if still active, sends the
`{"type": "end"}` marker.  Any exception is caught, `self.close()` is called,
and `WebSocketError` is re-raised — the returned `Bool` is true when the call
raises. -/
def AudioStream.streamAudio (s : AudioStream)
    (engine : Except Unit (List (List Int))) : AudioStream × Bool :=
  match engine with
  | Except.error _ => (s.close, true)
  | Except.ok chunks =>
    match AudioStream.sendChunks s.transport s.active chunks with
    | (t1, true) => (AudioStream.close { active := s.active, transport := t1 }, true)
    | (t1, false) =>
      if s.active then
        match t1.send (Frame.json OutMsg.endMark) with
        | Except.ok t2 => ({ active := s.active, transport := t2 }, false)
        | Except.error _ =>
          (AudioStream.close { active := s.active, transport := t1 }, true)
      else ({ active := s.active, transport := t1 }, false)

/-! ### WSMessageHandler (src/api/websocket.py) -/

/-- Decoded inbound messages, keyed by their `type` field: `synthesize` (with
its `text`; the empty string models a missing/empty text, which Python treats
as falsy), `stop`, `configure`, `pong`, or any other `type` string. -/
inductive InMsg where
  | synthesize (text : String) : InMsg
  | stop : InMsg
  | configure : InMsg
  | pong : InMsg
  | other (kind : String) : InMsg
  deriving DecidableEq

/-- One inbound websocket frame as seen by `websocket_endpoint_handler`:
either invalid JSON (`json.JSONDecodeError` on `receive_json`) or a decoded
message. -/
inductive RawFrame where
  | malformed : RawFrame
  | valid (m : InMsg) : RawFrame
  deriving DecidableEq

/-- The state of one `WSMessageHandler`: its stream (always initialized here,
as after a successful `initialize()`) and its `_active` flag, which gates the
`_process_messages` consumer loop. -/
structure Handler where
  stream : AudioStream
  hActive : Bool
  deriving DecidableEq

/-- The `WSMessageHandler._send_error`: `send_json({"type": "error", ...})`; any
exception is caught and only logged, so a failed send leaves the state
unchanged. -/
def Handler.send_error (h : Handler) (msg : String) : Handler :=
  match h.stream.transport.send (Frame.json (OutMsg.errorMsg msg)) with
  | Except.ok t => { h with stream := { h.stream with transport := t } }
  | Except.error _ => h

/-- The `WSMessageHandler._send_success`: like `_send_error` with
`{"type": "success", ...}`. -/
def Handler.send_success (h : Handler) (msg : String) : Handler :=
  match h.stream.transport.send (Frame.json (OutMsg.successMsg msg)) with
  | Except.ok t => { h with stream := { h.stream with transport := t } }
  | Except.error _ => h

/-- The `WSMessageHandler._handle_synthesis` (src/api/websocket.py lines 86-109):
empty/missing `text` is answered with `error{"No text provided"}`; otherwise
the synthesis task `stream.stream_audio(...)` is created and awaited, and if
it raises, the handler catches and sends `error{"Synthesis failed"}`.  The
engine behaviour is a parameter `eng` from the text to the chunk list (or an
engine failure). -/
def Handler.handle_synthesis (eng : String → Except Unit (List (List Int)))
    (h : Handler) (text : String) : Handler :=
  if text = "" then h.send_error "No text provided"
  else
    match h.stream.streamAudio (eng text) with
    | (s2, true) => Handler.send_error { h with stream := s2 } "Synthesis failed"
    | (s2, false) => { h with stream := s2 }

/-- The `WSMessageHandler._handle_stop` (src/api/websocket.py lines 111-119):
`await self.stream.close()` then `_send_success("Streaming stopped")`.
(`AudioStream.close` never raises: its awaits swallow `CancelledError` and
`websocket.close()` is wrapped in try/except, so the error branch of
`_handle_stop` is dead.) -/
def Handler.handle_stop (h : Handler) : Handler :=
  Handler.send_success { h with stream := h.stream.close } "Streaming stopped"

/-- The `WSMessageHandler._handle_configure`: acknowledges with
`success{"Configuration updated"}`, touching nothing else. -/
def Handler.handle_configure (h : Handler) : Handler :=
  h.send_success "Configuration updated"

/-- The `WSMessageHandler._handle_message` (src/api/websocket.py lines 66-84):
dispatch on the `type` field; `pong` is a no-op; anything unrecognized gets
`error{"Unknown message type"}`. -/
def Handler.handle_message (eng : String → Except Unit (List (List Int)))
    (h : Handler) : InMsg → Handler
  | InMsg.synthesize text => h.handle_synthesis eng text
  | InMsg.stop => h.handle_stop
  | InMsg.configure => h.handle_configure
  | InMsg.pong => h
  | InMsg.other _ => h.send_error "Unknown message type"

/-- The `WSMessageHandler._process_messages` (src/api/websocket.py lines 52-64):
the single consumer task; while `_active`, it dequeues one message and handles
it to completion before dequeuing the next.  Here it drains a given queue
(list) of messages in order. -/
def Handler.process_messages (eng : String → Except Unit (List (List Int)))
    (h : Handler) : List InMsg → Handler
  | [] => h
  | m :: rest =>
    if h.hActive then
      Handler.process_messages eng (h.handle_message eng m) rest
    else h

/-- The receive loop of `websocket_endpoint_handler` (src/api/websocket.py
lines 171-194) over a list of inbound frames: a `json.JSONDecodeError` makes
it send `error{"Invalid JSON message"}` and continue receiving; a decoded
message is enqueued via `handle_incoming_message`.  Returns the handler
together with the queue contents in arrival order. -/
def Handler.receive_loop (h : Handler) : List RawFrame → Handler × List InMsg
  | [] => (h, [])
  | RawFrame.malformed :: rest =>
    Handler.receive_loop (h.send_error "Invalid JSON message") rest
  | RawFrame.valid m :: rest =>
    let p := Handler.receive_loop h rest
    (p.1, m :: p.2)

/-- The decoded messages of a frame list, in arrival order. -/
def validMessages : List RawFrame → List InMsg
  | [] => []
  | RawFrame.malformed :: rest => validMessages rest
  | RawFrame.valid m :: rest => m :: validMessages rest

/-- How many frames of the list are malformed. -/
def malformedCount : List RawFrame → Nat
  | [] => 0
  | RawFrame.malformed :: rest => malformedCount rest + 1
  | RawFrame.valid _ :: rest => malformedCount rest

/-! ### Stream registry (src/tts/stream.py StreamManager,
src/api/dependencies.py) -/

/-- The `StreamManager`: the process-wide `_streams` dict, modelled by its key
list.  Session ids are freshly generated `uuid4` values, so a newly created
stream's key is never already present and dict insertion appends a key. -/
structure StreamManager where
  streams : List String
  deriving DecidableEq

/-- The `StreamManager.active_streams`: `len(self._streams)`. -/
def StreamManager.active_streams (m : StreamManager) : Nat :=
  m.streams.length

/-- The `validate_connection_limit` (src/api/dependencies.py lines 29-36): raises
`WebSocketError` (503) when `stream_manager.active_streams >=
settings.MAX_CONNECTIONS`, else returns `True`. -/
def validate_connection_limit (m : StreamManager) : Except Unit Bool :=
  if maxConnections ≤ m.active_streams then Except.error () else Except.ok true

/-- The `StreamManager.create_stream`: builds an `AudioStream` with a fresh
`session_id` and inserts it into `_streams`. -/
def StreamManager.create_stream (m : StreamManager) (sid : String) : StreamManager :=
  { streams := m.streams ++ [sid] }

/-- The `WebSocketManager.connect` (src/api/dependencies.py lines 43-56): first
`validate_connection_limit()`, then `stream_manager.create_stream(...)`; a
capacity failure is re-raised (as `WebSocketError`) without touching the
registry. -/
def WebSocketManager.connect (m : StreamManager) (sid : String) :
    Except Unit StreamManager :=
  match validate_connection_limit m with
  | Except.error e => Except.error e
  | Except.ok _ => Except.ok (m.create_stream sid)

/-- The handler initialization method of `WSMessageHandler`
(src/api/websocket.py lines 31-39), the path
actually used by `websocket_endpoint_handler`: it calls
`stream_manager.create_stream(self.websocket)` directly, with no
`validate_connection_limit` check. -/
def WSMessageHandler.initStream (m : StreamManager) (sid : String) : StreamManager :=
  m.create_stream sid

/-! ### Speech-stream chunking (src/tts/model.py) -/

/-- Truncation toward zero of a rational, the rounding `astype(np.int16)`
applies to a float (no overflow occurs on the inputs the code feeds it:
samples are in `[-1, 1]`, so the scaled values are in `[-32767, 32767]`). -/
def ratTrunc (q : ℚ) : ℤ :=
  if 0 ≤ q then ((q.num.toNat / q.den : ℕ) : ℤ)
  else -(((-q.num).toNat / q.den : ℕ) : ℤ)

/-- The int16 quantisation `(x * 32767).astype(np.int16)` applied samplewise
(src/tts/model.py line 117 and src/tts/audio.py line 40). -/
def quantize16 (x : ℚ) : ℤ :=
  ratTrunc (x * 32767)

/-- The chunking loop of `TTSModel.generate_speech_stream` (src/tts/model.py
lines 119-128): `for i in range(0, len(wav), chunk_size)`, slice, zero-pad a
short final slice to `chunk_size`.  With step 0 Python's `range` raises
`ValueError`, so the `0` case (unreachable for the claims, which require a
positive chunk size) yields nothing. -/
def chunkWav : Nat → List Int → List (List Int)
  | _, [] => []
  | 0, _ :: _ => []
  | cs + 1, a :: rest =>
    (if ((a :: rest).take (cs + 1)).length < cs + 1 then
      (a :: rest).take (cs + 1)
        ++ List.replicate (cs + 1 - ((a :: rest).take (cs + 1)).length) 0
    else (a :: rest).take (cs + 1))
    :: chunkWav (cs + 1) ((a :: rest).drop (cs + 1))
termination_by _ wav => wav.length
decreasing_by
  simp [List.length_drop]
  omega

/-- The `TTSModel.generate_speech_stream` (src/tts/model.py lines 98-135) after
the engine produced a waveform `wav`: quantise to int16 and chunk.  Each
yielded chunk is `chunk.tobytes()` of the corresponding sample list. -/
def TTSModel.generate_speech_stream (wav : List ℚ) (chunkSize : Nat) :
    List (List Int) :=
  chunkWav chunkSize (wav.map quantize16)

/-- Little-endian two-byte encoding of one int16 sample, as `tobytes()` lays
it out. -/
def int16LE (s : Int) : List Nat :=
  [(s % 65536).toNat % 256, (s % 65536).toNat / 256]

/-- The `chunk.tobytes()`: the byte string of an int16 sample list. -/
def chunkToBytes (c : List Int) : List Nat :=
  (c.map int16LE).flatten

/-! ### AudioProcessor (src/tts/audio.py) -/

/-- A parsed in-memory WAV file, the abstraction of what the `wave` module
writes and reads back (header fields plus the int16 frame data). -/
structure WavFile where
  nchannels : Nat
  sampwidth : Nat
  framerate : Nat
  frames : List ℤ
  deriving DecidableEq

/-- The `np.abs(a).max()` for a non-empty array (`max` of an empty numpy array
raises `ValueError`; callers below surface that as their error case).  The
fold's base `0` is never the result on non-empty input since every `|x|` is
nonnegative. -/
def maxAbs (a : List ℚ) : ℚ :=
  (a.map (fun x => |x|)).foldr max 0

/-- The `AudioProcessor.array_to_wav_bytes` (src/tts/audio.py lines 28-54):
normalizes only when `np.abs(a).max() > 1.0`, quantises to int16, and writes
a WAV with the configured channel count, 16-bit width and sample rate.  On an
empty array `np.abs(a).max()` raises, which the except clause converts to
`AudioError` — the `Except.error` case. -/
def AudioProcessor.array_to_wav_bytes (a : List ℚ) : Except Unit WavFile :=
  if a.isEmpty then Except.error ()
  else
    let a2 := if 1 < maxAbs a then a.map (fun x => x / maxAbs a) else a
    Except.ok ⟨numChannels, 2, sampleRate, a2.map quantize16⟩

/-- The `AudioProcessor.wav_bytes_to_array` (src/tts/audio.py lines 56-76): reads
the frame rate and the int16 frames and rescales by `/ 32767.0`. -/
def AudioProcessor.wav_bytes_to_array (w : WavFile) : List ℚ × Nat :=
  (w.frames.map (fun i : ℤ => (i : ℚ) / 32767), w.framerate)

/-- The `AudioProcessor.normalize_audio` (src/tts/audio.py lines 78-88):
`max_val = np.abs(audio).max()` (raises on an empty array, surfaced as
`AudioError` — the `Except.error` case); divide by it when positive, else
return the input unchanged. -/
def AudioProcessor.normalize_audio (a : List ℚ) : Except Unit (List ℚ) :=
  if a.isEmpty then Except.error ()
  else if 0 < maxAbs a then Except.ok (a.map (fun x => x / maxAbs a))
  else Except.ok a

/-! ### Helper lemmas about the streaming loop -/

/-- On an open transport with the active flag up, the forwarding loop delivers
every chunk, in order, as binary frames, and no send raises. -/
lemma sendChunks_open (sent : List Frame) (cs : List (List Int)) :
    AudioStream.sendChunks ⟨sent, false⟩ true cs
      = (⟨sent ++ cs.map Frame.bytes, false⟩, false) := by
  induction cs generalizing sent with
  | nil => simp [AudioStream.sendChunks]
  | cons c rest ih =>
    simp only [AudioStream.sendChunks, Transport.send, if_true]
    simp only [Bool.false_eq_true, if_false, List.map_cons]
    rw [ih]
    simp

/-- With the active flag down, the forwarding loop sends nothing and raises
nothing. -/
lemma sendChunks_inactive (t : Transport) (cs : List (List Int)) :
    AudioStream.sendChunks t false cs = (t, false) := by
  cases cs <;> simp [AudioStream.sendChunks]

/-- The `stream_audio` on an active stream with an open transport and a
successfully produced chunk list: all chunks are delivered in order, followed
by the single `end` marker; the stream stays active and the call does not
raise. -/
lemma streamAudio_open (sent : List Frame) (cs : List (List Int)) :
    AudioStream.streamAudio ⟨true, sent, false⟩ (Except.ok cs)
      = (⟨true, ⟨sent ++ cs.map Frame.bytes ++ [Frame.json OutMsg.endMark],
          false⟩⟩, false) := by
  simp only [AudioStream.streamAudio, sendChunks_open]
  simp [Transport.send]

/-! ### Concrete fixtures used by witnesses and counterexamples -/

/-- A freshly initialized handler: stream active, transport open with no
frames delivered yet, consumer loop running. -/
def freshHandler : Handler :=
  ⟨⟨true, ⟨[], false⟩⟩, true⟩

/-- An engine whose synthesis call always fails (`ModelError` from
`generate_speech_stream` before the first yield). -/
def engineFailing : String → Except Unit (List (List Int)) :=
  fun _ => Except.error ()

/-- An engine producing two one-sample chunks for the text "a" and one chunk
for every other text. -/
def engineTwoTexts : String → Except Unit (List (List Int)) :=
  fun t => if t = "a" then Except.ok [[1], [2]] else Except.ok [[3]]

/-! ### C5 — chunk order and the end marker -/

/-- C5: for every streaming operation on a stream that is active with an open
transport and whose synthesis generator succeeds, the binary frames delivered
are exactly the produced chunks in production order, followed by exactly one
`end` control frame (the `end` marker never occurs among the audio frames, so
it is never sent before the last chunk); the call does not raise and the
stream stays active. -/
theorem c5_chunk_order_end (s : AudioStream) (chunks : List (List Int))
    (hA : s.active = true) (hC : s.transport.closed = false) :
    AudioStream.streamAudio s (Except.ok chunks)
      = (⟨true, ⟨s.transport.sent ++ chunks.map Frame.bytes
          ++ [Frame.json OutMsg.endMark], false⟩⟩, false)
    ∧ Frame.json OutMsg.endMark ∉ chunks.map Frame.bytes := by
  obtain ⟨a, sent, c⟩ := s
  simp only at hA hC
  subst hA; subst hC
  refine ⟨streamAudio_open sent chunks, ?_⟩
  simp

/-- Witness for C5 at a concrete active stream and a two-chunk production. -/
theorem c5_witness :
    (AudioStream.active ⟨true, ⟨[], false⟩⟩ = true)
    ∧ (Transport.closed ⟨[], false⟩ = false)
    ∧ (AudioStream.streamAudio ⟨true, ⟨[], false⟩⟩ (Except.ok [[5], [6]])
        = (⟨true, ⟨[Frame.bytes [5], Frame.bytes [6],
            Frame.json OutMsg.endMark], false⟩⟩, false)
      ∧ Frame.json OutMsg.endMark ∉ ([[5], [6]] : List (List Int)).map Frame.bytes) := by
  refine ⟨rfl, rfl, ?_⟩
  have h := c5_chunk_order_end ⟨true, ⟨[], false⟩⟩ [[5], [6]] rfl rfl
  simpa using h

/-! ### C9 — a closed stream emits nothing -/

/-- C9: once `close()` has completed on an `AudioStream`, every subsequent
`stream_audio` call delivers no frame at all — no binary chunk and no `end`
marker — whatever the engine does; and the stream is still inactive
afterwards, so the same holds for every later call as well. -/
theorem c9_closed_stream_silent (s : AudioStream)
    (engine : Except Unit (List (List Int))) :
    ((s.close.streamAudio engine).1.transport.sent = s.transport.sent)
    ∧ ((s.close.streamAudio engine).1.active = false) := by
  cases engine with
  | error e =>
    simp [AudioStream.streamAudio, AudioStream.close, Transport.closeConn]
  | ok chunks =>
    simp [AudioStream.streamAudio, AudioStream.close, Transport.closeConn,
      sendChunks_inactive]

/-! ### C3 — stop closes the connection (corrected) -/

/-- C3 counterexample: handling `stop` on a freshly initialized session (no
streaming in flight) closes the connection and delivers no `success` frame at
all, contradicting the claim that the reply is exactly one `success` message
and that the connection is never closed by `stop`. -/
theorem c3_counterexample :
    (Handler.handle_message engineFailing freshHandler InMsg.stop).stream.transport.closed
        = true
    ∧ (Handler.handle_message engineFailing freshHandler InMsg.stop).stream.transport.sent
        = [] := by
  constructor <;> rfl

/-- C3 (amended): handling a `stop` message always closes the stream —
`AudioStream.close` cancels any in-flight streaming task, sets the active
flag to false and closes the websocket — and the subsequent
`success{"Streaming stopped"}` reply is attempted on the transport just
closed, so it fails silently and no frame is delivered; the consumer-loop
flag is untouched. -/
theorem c3_stop_closes_connection (eng : String → Except Unit (List (List Int)))
    (h : Handler) :
    Handler.handle_message eng h InMsg.stop
      = ⟨⟨false, ⟨h.stream.transport.sent, true⟩⟩, h.hActive⟩ := by
  obtain ⟨⟨a, sent, c⟩, act⟩ := h
  simp [Handler.handle_message, Handler.handle_stop, Handler.send_success,
    AudioStream.close, Transport.closeConn, Transport.send]

/-! ### C2 — synthesis failure tears the stream down (corrected) -/

/-- C2 counterexample: on a freshly initialized session, a `synthesize`
request whose engine call fails leaves the stream with its active flag false
and its transport closed, and no `error` frame is delivered, contradicting
the claim that a synthesis failure never closes the session's transport nor
clears its active flag and that exactly one `error` message is sent. -/
theorem c2_counterexample :
    (Handler.handle_message engineFailing freshHandler
        (InMsg.synthesize "hello")).stream.active = false
    ∧ (Handler.handle_message engineFailing freshHandler
        (InMsg.synthesize "hello")).stream.transport.closed = true
    ∧ (Handler.handle_message engineFailing freshHandler
        (InMsg.synthesize "hello")).stream.transport.sent = [] := by
  refine ⟨rfl, rfl, rfl⟩

/-- C2 (amended): if the synthesis engine fails on a non-empty text, the
error path of `stream_audio` first closes the stream — active flag false,
transport closed — and re-raises; the handler then attempts a single
`error{"Synthesis failed"}` reply, which fails on the just-closed transport,
so no frame is delivered at all; the handler's consumer flag is untouched
(the consumer loop keeps running), but the session's transport has been
closed by the synthesis failure. -/
theorem c2_engine_failure_closes_stream
    (eng : String → Except Unit (List (List Int))) (h : Handler) (text : String)
    (hT : text ≠ "") (hE : eng text = Except.error ()) :
    Handler.handle_message eng h (InMsg.synthesize text)
      = ⟨⟨false, ⟨h.stream.transport.sent, true⟩⟩, h.hActive⟩ := by
  obtain ⟨⟨a, sent, c⟩, act⟩ := h
  simp [Handler.handle_message, Handler.handle_synthesis, hT, hE,
    AudioStream.streamAudio, AudioStream.close, Transport.closeConn,
    Handler.send_error, Transport.send]

/-- Witness for C2 (amended) on the fresh handler and the always-failing
engine. -/
theorem c2_witness :
    ("hello" ≠ "")
    ∧ (engineFailing "hello" = Except.error ())
    ∧ (Handler.handle_message engineFailing freshHandler (InMsg.synthesize "hello")
        = ⟨⟨false, ⟨(freshHandler).stream.transport.sent, true⟩⟩,
            (freshHandler).hActive⟩) := by
  refine ⟨by decide, rfl, ?_⟩
  exact c2_engine_failure_closes_stream engineFailing freshHandler "hello"
    (by decide) rfl

/-! ### More handler helper lemmas -/

/-- The `_send_error` on an open transport delivers exactly one `error` frame and
changes nothing else. -/
lemma send_error_open (h : Handler) (msg : String)
    (hC : h.stream.transport.closed = false) :
    h.send_error msg
      = { h with stream := { h.stream with transport :=
          ⟨h.stream.transport.sent ++ [Frame.json (OutMsg.errorMsg msg)],
            false⟩ } } := by
  obtain ⟨⟨a, sent, c⟩, act⟩ := h
  simp only at hC
  subst hC
  simp [Handler.send_error, Transport.send]

/-- Dispatching a successful `synthesize` on an active handler with an open
transport: the chunks and the `end` marker are delivered, the stream stays
active and open, the consumer flag is untouched. -/
lemma handle_synthesis_ok (eng : String → Except Unit (List (List Int)))
    (h : Handler) (t : String) (cs : List (List Int))
    (hT : t ≠ "") (hE : eng t = Except.ok cs)
    (hS : h.stream.active = true) (hC : h.stream.transport.closed = false) :
    h.handle_message eng (InMsg.synthesize t)
      = ⟨⟨true, ⟨h.stream.transport.sent ++ cs.map Frame.bytes
          ++ [Frame.json OutMsg.endMark], false⟩⟩, h.hActive⟩ := by
  obtain ⟨⟨a, sent, c⟩, act⟩ := h
  simp only at hS hC
  subst hS; subst hC
  simp [Handler.handle_message, Handler.handle_synthesis, hT, hE,
    streamAudio_open]

/-! ### C4 — no interleaving of two synthesis runs -/

/-- C4: if two `synthesize` messages are both in the queue before either is
processed, the single consumer loop handles them strictly one after the
other: the delivered frames are the first run's chunks and `end` marker as a
contiguous block, followed by the second run's chunks and `end` marker — no
audio of the second run appears before the first run has finished. -/
theorem c4_no_interleaving (eng : String → Except Unit (List (List Int)))
    (h : Handler) (t1 t2 : String) (cs1 cs2 : List (List Int))
    (hA : h.hActive = true) (hS : h.stream.active = true)
    (hC : h.stream.transport.closed = false)
    (h1 : t1 ≠ "") (h2 : t2 ≠ "")
    (e1 : eng t1 = Except.ok cs1) (e2 : eng t2 = Except.ok cs2) :
    (h.process_messages eng [InMsg.synthesize t1, InMsg.synthesize t2]).stream.transport.sent
      = h.stream.transport.sent
        ++ (cs1.map Frame.bytes ++ [Frame.json OutMsg.endMark])
        ++ (cs2.map Frame.bytes ++ [Frame.json OutMsg.endMark]) := by
  obtain ⟨⟨a, sent, c⟩, act⟩ := h
  simp only at hA hS hC
  subst hA; subst hS; subst hC
  have s1 := handle_synthesis_ok eng ⟨⟨true, sent, false⟩, true⟩ t1 cs1 h1 e1
    rfl rfl
  simp only [Handler.process_messages, if_true, s1]
  have s2 := handle_synthesis_ok eng
    ⟨⟨true, ⟨sent ++ cs1.map Frame.bytes ++ [Frame.json OutMsg.endMark],
      false⟩⟩, true⟩ t2 cs2 h2 e2 rfl rfl
  simp only [s2]
  simp

/-- Witness for C4: two texts, two distinct chunk productions, starting from
the fresh handler. -/
theorem c4_witness :
    ((freshHandler).hActive = true)
    ∧ ((freshHandler).stream.active = true)
    ∧ ((freshHandler).stream.transport.closed = false)
    ∧ ("a" ≠ "") ∧ ("b" ≠ "")
    ∧ (engineTwoTexts "a" = Except.ok [[1], [2]])
    ∧ (engineTwoTexts "b" = Except.ok [[3]])
    ∧ ((freshHandler).process_messages engineTwoTexts
          [InMsg.synthesize "a", InMsg.synthesize "b"]).stream.transport.sent
        = (freshHandler).stream.transport.sent
          ++ (([[1], [2]] : List (List Int)).map Frame.bytes
              ++ [Frame.json OutMsg.endMark])
          ++ (([[3]] : List (List Int)).map Frame.bytes
              ++ [Frame.json OutMsg.endMark]) := by
  refine ⟨rfl, rfl, rfl, by decide, by decide, by simp [engineTwoTexts],
    by simp [engineTwoTexts], ?_⟩
  exact c4_no_interleaving engineTwoTexts freshHandler "a" "b" [[1], [2]] [[3]]
    rfl rfl rfl (by decide) (by decide) (by simp [engineTwoTexts])
    (by simp [engineTwoTexts])

/-! ### C7 — decode failures and unknown kinds are recoverable -/

/-- Full characterization of the endpoint receive loop on an open transport:
every decoded message is enqueued in arrival order (malformed frames drop
nothing that follows them), each malformed frame is answered by exactly one
`error{"Invalid JSON message"}` frame, and the handler state is otherwise
untouched. -/
lemma receive_loop_spec (h : Handler) (frames : List RawFrame)
    (hC : h.stream.transport.closed = false) :
    (h.receive_loop frames).2 = validMessages frames
    ∧ (h.receive_loop frames).1
        = { h with stream := { h.stream with transport :=
            ⟨h.stream.transport.sent
              ++ List.replicate (malformedCount frames)
                (Frame.json (OutMsg.errorMsg "Invalid JSON message")),
              false⟩ } } := by
  induction frames generalizing h with
  | nil =>
    obtain ⟨⟨a, sent, c⟩, act⟩ := h
    simp only at hC
    subst hC
    simp [Handler.receive_loop, validMessages, malformedCount]
  | cons f rest ih =>
    cases f with
    | malformed =>
      obtain ⟨⟨a, sent, c⟩, act⟩ := h
      simp only at hC
      subst hC
      have unfold1 : Handler.receive_loop ⟨⟨a, sent, false⟩, act⟩
            (RawFrame.malformed :: rest)
          = Handler.receive_loop ⟨⟨a, ⟨sent
              ++ [Frame.json (OutMsg.errorMsg "Invalid JSON message")],
              false⟩⟩, act⟩ rest := rfl
      have step := ih (h := ⟨⟨a, ⟨sent
        ++ [Frame.json (OutMsg.errorMsg "Invalid JSON message")], false⟩⟩, act⟩)
        rfl
      rw [unfold1]
      refine ⟨step.1, ?_⟩
      rw [step.2]
      simp [malformedCount, List.replicate_succ]
    | valid m =>
      have step := ih (h := h) hC
      refine ⟨?_, ?_⟩
      · show (Handler.receive_loop h rest).2.cons m = _
        rw [step.1]
        rfl
      · exact step.2

/-- C7: a malformed inbound frame causes exactly one
`error{"Invalid JSON message"}` reply and the receive loop continues — every
decoded message, before or after the malformed frame, still reaches the queue
in arrival order, and neither the transport's closed flag, the stream's
active flag nor the consumer flag changes; likewise a decoded message whose
`type` is unrecognized gets exactly one `error{"Unknown message type"}` reply
and leaves the session state otherwise unchanged, so subsequent messages keep
being processed. -/
theorem c7_decode_errors_recoverable
    (eng : String → Except Unit (List (List Int))) (h : Handler)
    (frames : List RawFrame) (k : String)
    (hC : h.stream.transport.closed = false) :
    ((h.receive_loop frames).2 = validMessages frames)
    ∧ ((h.receive_loop frames).1.stream.transport.sent
        = h.stream.transport.sent
          ++ List.replicate (malformedCount frames)
            (Frame.json (OutMsg.errorMsg "Invalid JSON message")))
    ∧ ((h.receive_loop frames).1.stream.transport.closed = false)
    ∧ ((h.receive_loop frames).1.stream.active = h.stream.active)
    ∧ ((h.receive_loop frames).1.hActive = h.hActive)
    ∧ (h.handle_message eng (InMsg.other k)
        = { h with stream := { h.stream with transport :=
            ⟨h.stream.transport.sent
              ++ [Frame.json (OutMsg.errorMsg "Unknown message type")],
              false⟩ } }) := by
  obtain ⟨hq, hh⟩ := receive_loop_spec h frames hC
  refine ⟨hq, by rw [hh], by rw [hh], by rw [hh], by rw [hh], ?_⟩
  simp only [Handler.handle_message]
  exact send_error_open h "Unknown message type" hC

/-- Witness for C7: fresh handler, a malformed frame between two decoded
messages, and an unrecognized message kind. -/
theorem c7_witness :
    ((freshHandler).stream.transport.closed = false)
    ∧ (((freshHandler).receive_loop
        [RawFrame.malformed, RawFrame.valid InMsg.stop, RawFrame.malformed]).2
      = validMessages
        [RawFrame.malformed, RawFrame.valid InMsg.stop, RawFrame.malformed])
    ∧ (((freshHandler).receive_loop
        [RawFrame.malformed, RawFrame.valid InMsg.stop, RawFrame.malformed]).1.stream.transport.sent
      = (freshHandler).stream.transport.sent
        ++ List.replicate (malformedCount
            [RawFrame.malformed, RawFrame.valid InMsg.stop, RawFrame.malformed])
          (Frame.json (OutMsg.errorMsg "Invalid JSON message"))) := by
  refine ⟨rfl, ?_, ?_⟩
  · exact (c7_decode_errors_recoverable engineFailing freshHandler
      [RawFrame.malformed, RawFrame.valid InMsg.stop, RawFrame.malformed]
      "bogus" rfl).1
  · exact (c7_decode_errors_recoverable engineFailing freshHandler
      [RawFrame.malformed, RawFrame.valid InMsg.stop, RawFrame.malformed]
      "bogus" rfl).2.1

/-! ### C1 — the endpoint admission path bypasses the capacity check -/

/-- A registry already holding `MAX_CONNECTIONS` streams (distinct session
ids). -/
def fullRegistry : StreamManager :=
  ⟨(List.range maxConnections).map toString⟩

/-- C1: the capacity invariant does not survive the websocket endpoint's
admission path.  With the registry at capacity, `validate_connection_limit`
does reject (so `WebSocketManager.connect` would refuse), but
`websocket_endpoint_handler` admits through `WSMessageHandler.initStream`,
which calls `stream_manager.create_stream` without any capacity check: the
registry then holds `MAX_CONNECTIONS + 1` sessions. -/
theorem c1_capacity_bypass :
    (fullRegistry.active_streams = maxConnections)
    ∧ (validate_connection_limit fullRegistry = Except.error ())
    ∧ ((WSMessageHandler.initStream fullRegistry "overflow").active_streams
        = maxConnections + 1) := by
  refine ⟨?_, ?_, ?_⟩
  · simp [fullRegistry, StreamManager.active_streams]
  · simp [validate_connection_limit, fullRegistry, StreamManager.active_streams]
  · simp [WSMessageHandler.initStream, StreamManager.create_stream,
      StreamManager.active_streams, fullRegistry]

/-! ### C6 — fixed-size zero-padded chunking -/

/-- The `chunk.tobytes()` of an int16 sample list has two bytes per sample. -/
lemma chunkToBytes_length (c : List Int) :
    (chunkToBytes c).length = 2 * c.length := by
  induction c with
  | nil => simp [chunkToBytes]
  | cons a t ih =>
    simp only [chunkToBytes, List.map_cons, List.flatten_cons,
      List.length_append, List.length_cons] at *
    simp only [int16LE, List.length_cons, List.length_nil, ih]
    omega

/-- The chunking loop, fully characterized for a positive chunk size
(written `k + 1`): every produced chunk has exactly the chunk size, and the
concatenation of the chunks is the input waveform followed by just enough
zeros to reach the next multiple of the chunk size. -/
lemma chunkWav_spec (k : Nat) : ∀ (n : Nat) (wav : List Int),
    wav.length ≤ n →
      (∀ c ∈ chunkWav (k + 1) wav, c.length = k + 1)
      ∧ (chunkWav (k + 1) wav).flatten
          = wav ++ List.replicate ((k + 1 - wav.length % (k + 1)) % (k + 1)) 0 := by
  intro n
  induction n with
  | zero =>
    intro wav h
    have hw : wav = [] := List.eq_nil_of_length_eq_zero (Nat.le_zero.mp h)
    subst hw
    simp [chunkWav]
  | succ n ih =>
    intro wav h
    match wav with
    | [] => simp [chunkWav]
    | a :: rest =>
      by_cases hlen : (a :: rest).length ≤ k
      · have ht : (a :: rest).take (k + 1) = a :: rest :=
          List.take_of_length_le (by omega)
        have hd : (a :: rest).drop (k + 1) = [] :=
          List.drop_eq_nil_of_le (by omega)
        have hmod : (a :: rest).length % (k + 1) = (a :: rest).length :=
          Nat.mod_eq_of_lt (by omega)
        have hmod2 : (k + 1 - (a :: rest).length) % (k + 1)
            = k + 1 - (a :: rest).length := by
          have hpos : 0 < (a :: rest).length := by simp
          exact Nat.mod_eq_of_lt (by omega)
        rw [chunkWav, ht, hd]
        have hshort : (a :: rest).length < k + 1 := by omega
        simp only [if_pos hshort, chunkWav, List.flatten_cons, List.flatten_nil,
          List.append_nil, List.mem_singleton, hmod, hmod2]
        constructor
        · intro c hc
          subst hc
          simp only [List.length_append, List.length_replicate]
          have hlink : (a :: rest).length = rest.length + 1 := by simp
          omega
        · trivial
      · have hlen2 : k + 1 ≤ (a :: rest).length := by omega
        have ht : ((a :: rest).take (k + 1)).length = k + 1 := by
          rw [List.length_take]
          have hlink : (a :: rest).length = rest.length + 1 := by simp
          omega
        have hdroplen : ((a :: rest).drop (k + 1)).length ≤ n := by
          simp only [List.length_drop]
          have := h
          simp only [List.length_cons] at *
          omega
        have step := ih ((a :: rest).drop (k + 1)) hdroplen
        have hmod : ((a :: rest).drop (k + 1)).length % (k + 1)
            = (a :: rest).length % (k + 1) := by
          rw [List.length_drop]
          exact (Nat.mod_eq_sub_mod hlen2).symm
        rw [chunkWav]
        have hnotshort : ¬ ((a :: rest).take (k + 1)).length < k + 1 := by omega
        simp only [if_neg hnotshort, List.flatten_cons, List.mem_cons]
        constructor
        · intro c hc
          rcases hc with hc | hc
          · subst hc; exact ht
          · exact step.1 c hc
        · rw [step.2, hmod, ← List.append_assoc, List.take_append_drop]

/-- C6: for every generated waveform and every positive chunk size, each
chunk yielded by `generate_speech_stream` holds exactly `chunk_size` int16
samples (hence `2 * chunk_size` bytes after `tobytes()`), and the
concatenation of all yielded chunks is the int16-quantised waveform followed
by zeros up to the next multiple of `chunk_size` (a final short window is
zero-padded, never yielded short). -/
theorem c6_chunking (wav : List ℚ) (chunkSize : Nat) (hcs : 0 < chunkSize) :
    (∀ c ∈ TTSModel.generate_speech_stream wav chunkSize,
        c.length = chunkSize ∧ (chunkToBytes c).length = 2 * chunkSize)
    ∧ (TTSModel.generate_speech_stream wav chunkSize).flatten
        = wav.map quantize16
          ++ List.replicate
            ((chunkSize - (wav.map quantize16).length % chunkSize) % chunkSize)
            0 := by
  match chunkSize, hcs with
  | k + 1, _ =>
    have spec := chunkWav_spec k (wav.map quantize16).length (wav.map quantize16)
      le_rfl
    refine ⟨?_, spec.2⟩
    intro c hc
    have hl := spec.1 c hc
    exact ⟨hl, by rw [chunkToBytes_length, hl]⟩

/-- Witness for C6 at chunk size 2 and a three-sample waveform (the final
window is one sample short and gets one zero of padding). -/
theorem c6_witness :
    0 < 2
    ∧ ((∀ c ∈ TTSModel.generate_speech_stream [1/2, -1, 1/4] 2,
          c.length = 2 ∧ (chunkToBytes c).length = 2 * 2)
      ∧ (TTSModel.generate_speech_stream [1/2, -1, 1/4] 2).flatten
          = ([1/2, -1, 1/4] : List ℚ).map quantize16
            ++ List.replicate
              ((2 - (([1/2, -1, 1/4] : List ℚ).map quantize16).length % 2) % 2)
              0) :=
  ⟨by decide, c6_chunking [1/2, -1, 1/4] 2 (by decide)⟩

/-! ### Lemmas about maxAbs -/

/-- A fold of `max` starting at `0` is bounded by any nonnegative bound of
the elements. -/
lemma foldr_max_le (l : List ℚ) (b : ℚ) (h0 : 0 ≤ b) (h : ∀ x ∈ l, x ≤ b) :
    l.foldr max 0 ≤ b := by
  induction l with
  | nil => exact h0
  | cons x t ih =>
    exact max_le (h x (List.mem_cons_self x t))
      (ih fun y hy => h y (List.mem_cons_of_mem x hy))

/-- Every element is bounded by the fold of `max` starting at `0`. -/
lemma le_foldr_max (l : List ℚ) (x : ℚ) (hx : x ∈ l) : x ≤ l.foldr max 0 := by
  induction l with
  | nil => cases hx
  | cons y t ih =>
    rcases List.mem_cons.mp hx with h | h
    · subst h; exact le_max_left _ _
    · exact le_trans (ih h) (le_max_right _ _)

/-- The `np.abs(a).max()` bounds every `|x|` of the array. -/
lemma le_maxAbs (a : List ℚ) (x : ℚ) (hx : x ∈ a) : |x| ≤ maxAbs a :=
  le_foldr_max _ _ (List.mem_map_of_mem (fun y => |y|) hx)

/-- The `np.abs(a).max()` is at most any common nonnegative bound of the `|x|`. -/
lemma maxAbs_le (a : List ℚ) (b : ℚ) (h0 : 0 ≤ b) (h : ∀ x ∈ a, |x| ≤ b) :
    maxAbs a ≤ b := by
  refine foldr_max_le _ _ h0 ?_
  intro y hy
  rcases List.mem_map.mp hy with ⟨x, hx, rfl⟩
  exact h x hx

/-- The `np.abs(a).max()` is never negative. -/
lemma maxAbs_nonneg (a : List ℚ) : 0 ≤ maxAbs a := by
  induction a with
  | nil => exact le_refl 0
  | cons x t ih => exact le_trans ih (le_max_right _ _)

/-! ### C8 — WAV round trip (corrected) -/

/-- C8 counterexample: on the empty array — which vacuously has all absolute
values at most 1 — `array_to_wav_bytes` raises `AudioError` (numpy's `max` of
a zero-size array raises), so the round trip returns no pair at all,
contradicting the claim as stated for every such array. -/
theorem c8_counterexample :
    AudioProcessor.array_to_wav_bytes ([] : List ℚ) = Except.error () := rfl

/-- C8 (amended): for every NON-EMPTY float audio array whose absolute values
are at most 1, `wav_bytes_to_array (array_to_wav_bytes a)` returns a pair
`(a2, sr)` where `sr` is the configured sample rate, `a2` has the same length
as `a`, and each sample of `a2` is the int16 quantisation of the
corresponding sample of `a` divided back by 32767; on the empty array
`array_to_wav_bytes` raises `AudioError` instead. -/
theorem c8_roundtrip (a : List ℚ) (hne : a ≠ []) (hb : ∀ x ∈ a, |x| ≤ 1) :
    ∃ w, AudioProcessor.array_to_wav_bytes a = Except.ok w
      ∧ AudioProcessor.wav_bytes_to_array w
          = (a.map (fun x => (quantize16 x : ℚ) / 32767), sampleRate)
      ∧ (AudioProcessor.wav_bytes_to_array w).1.length = a.length := by
  have hie : a.isEmpty = false := by
    cases a with
    | nil => exact absurd rfl hne
    | cons x t => rfl
  have hmax : ¬ (1 : ℚ) < maxAbs a :=
    not_lt.mpr (maxAbs_le a 1 (by norm_num) hb)
  refine ⟨⟨numChannels, 2, sampleRate, a.map quantize16⟩, ?_, ?_, ?_⟩
  · simp only [AudioProcessor.array_to_wav_bytes, hie, Bool.false_eq_true,
      if_false, if_neg hmax]
  · simp only [AudioProcessor.wav_bytes_to_array, List.map_map]
    rfl
  · simp only [AudioProcessor.wav_bytes_to_array, List.length_map]

/-- Witness for C8 at a two-sample array inside the admissible range. -/
theorem c8_witness :
    (([1/2, -1] : List ℚ) ≠ [])
    ∧ (∀ x ∈ ([1/2, -1] : List ℚ), |x| ≤ 1)
    ∧ (∃ w, AudioProcessor.array_to_wav_bytes ([1/2, -1] : List ℚ) = Except.ok w
        ∧ AudioProcessor.wav_bytes_to_array w
            = (([1/2, -1] : List ℚ).map (fun x => (quantize16 x : ℚ) / 32767),
                sampleRate)
        ∧ (AudioProcessor.wav_bytes_to_array w).1.length
            = ([1/2, -1] : List ℚ).length) := by
  have hb0 : ∀ x ∈ ([1/2, -1] : List ℚ), |x| ≤ 1 := by
    intro x hx
    rcases List.mem_cons.mp hx with rfl | hx
    · rw [abs_of_nonneg (by norm_num)]; norm_num
    · rcases List.mem_cons.mp hx with rfl | hx
      · rw [abs_of_nonpos (by norm_num)]; norm_num
      · cases hx
  refine ⟨by decide, hb0, ?_⟩
  exact c8_roundtrip [1/2, -1] (by decide) hb0

/-! ### C10 — normalize_audio (corrected) -/

/-- C10 counterexample: `normalize_audio` is not total on every numpy array:
on the empty array, `np.abs(audio).max()` raises and the function surfaces
`AudioError` instead of returning an array. -/
theorem c10_counterexample :
    AudioProcessor.normalize_audio ([] : List ℚ) = Except.error () := rfl

/-- C10 (amended): on every NON-EMPTY array, `normalize_audio` returns: the
input unchanged when the array is all zeros (maximum absolute value 0, no
division by zero is attempted), and otherwise the input divided by its
maximum absolute value, whose entries all have absolute value at most 1; on
the empty array it raises `AudioError`. -/
theorem c10_normalize (a : List ℚ) (hne : a ≠ []) :
    ((∀ x ∈ a, x = 0) → AudioProcessor.normalize_audio a = Except.ok a)
    ∧ ((∃ x ∈ a, x ≠ 0) →
        AudioProcessor.normalize_audio a
            = Except.ok (a.map (fun x => x / maxAbs a))
        ∧ ∀ y ∈ a.map (fun x => x / maxAbs a), |y| ≤ 1) := by
  have hie : a.isEmpty = false := by
    cases a with
    | nil => exact absurd rfl hne
    | cons x t => rfl
  constructor
  · intro hz
    have hmax : maxAbs a = 0 := by
      have h1 : maxAbs a ≤ 0 := maxAbs_le a 0 (le_refl 0) fun x hx => by
        rw [hz x hx]; simp
      exact le_antisymm h1 (maxAbs_nonneg a)
    simp [AudioProcessor.normalize_audio, hie, hmax]
  · rintro ⟨x, hx, hx0⟩
    have hpos : 0 < maxAbs a :=
      lt_of_lt_of_le (abs_pos.mpr hx0) (le_maxAbs a x hx)
    constructor
    · simp [AudioProcessor.normalize_audio, hie, hpos]
    · intro y hy
      rcases List.mem_map.mp hy with ⟨z, hz, rfl⟩
      rw [abs_div, abs_of_pos hpos]
      exact (div_le_one hpos).mpr (le_maxAbs a z hz)

/-- Witness for C10 at a non-empty array with a nonzero entry. -/
theorem c10_witness :
    (([0, -2] : List ℚ) ≠ [])
    ∧ ((∀ x ∈ ([0, -2] : List ℚ), x = 0) →
        AudioProcessor.normalize_audio ([0, -2] : List ℚ)
          = Except.ok ([0, -2] : List ℚ))
    ∧ ((∃ x ∈ ([0, -2] : List ℚ), x ≠ 0) →
        AudioProcessor.normalize_audio ([0, -2] : List ℚ)
            = Except.ok (([0, -2] : List ℚ).map (fun x => x / maxAbs [0, -2]))
        ∧ ∀ y ∈ ([0, -2] : List ℚ).map (fun x => x / maxAbs [0, -2]), |y| ≤ 1) := by
  refine ⟨by decide, ?_, ?_⟩
  · exact (c10_normalize [0, -2] (by decide)).1
  · exact (c10_normalize [0, -2] (by decide)).2

end Tonev







